import Mathlib

/-!
Verification development for the hinata-rs HID/PN532 transport library.

Rust source is shallowly embedded: `u8`/`usize` become `Nat` with explicit
`% 256` where wrapping matters, `Vec<u8>` becomes `List Nat`, fallible code
returns an outcome type that distinguishes `Ok`, `Err` and a Rust panic
(index out of range, arithmetic overflow in a checked build).
-/

namespace Hinata

/-- Outcome of running a piece of Rust code: normal `Ok`, normal `Err`,
or a panic (out-of-bounds indexing, checked-arithmetic overflow). -/
inductive RustOutcome (ε α : Type) where
  | ok : α → RustOutcome ε α
  | err : ε → RustOutcome ε α
  | panicked : String → RustOutcome ε α
deriving DecidableEq, Repr

instance : Monad (RustOutcome ε) where
  pure := RustOutcome.ok
  bind m f :=
    match m with
    | .ok a => f a
    | .err e => .err e
    | .panicked s => .panicked s

@[simp]
theorem RustOutcome.ok_bind (a : α) (f : α → RustOutcome ε β) :
    (RustOutcome.ok a : RustOutcome ε α) >>= f = f a := rfl

@[simp]
theorem RustOutcome.err_bind (e : ε) (f : α → RustOutcome ε β) :
    (RustOutcome.err e : RustOutcome ε α) >>= f = .err e := rfl

@[simp]
theorem RustOutcome.panicked_bind (s : String) (f : α → RustOutcome ε β) :
    (RustOutcome.panicked s : RustOutcome ε α) >>= f = .panicked s := rfl

@[simp]
theorem RustOutcome.pure_eq (a : α) :
    (pure a : RustOutcome ε α) = RustOutcome.ok a := rfl

/-- `Pn532Direction` from src/pn532.rs: the TFI byte of a chip frame. -/
inductive Pn532Direction where
  | HostToPn532
  | Pn532ToHost
deriving DecidableEq, Repr

/-- Discriminant of `Pn532Direction` (`direction as u8`). -/
def Pn532Direction.toU8 : Pn532Direction → Nat
  | .HostToPn532 => 0xD4
  | .Pn532ToHost => 0xD5

/-- `Pn532Direction::from_u8` (derived `FromPrimitive`). -/
def Pn532Direction.fromU8 : Nat → Option Pn532Direction
  | 0xD4 => some .HostToPn532
  | 0xD5 => some .Pn532ToHost
  | _ => none

/-- `Pn532Command` from src/pn532.rs: the closed opcode enum. -/
inductive Pn532Command where
  | Diagnose
  | GetFirmwareVersion
  | GetGeneralStatus
  | ReadRegister
  | WriteRegister
  | ReadGpio
  | WriteGpio
  | SetSerialBaudRate
  | SetParameters
  | SamConfiguration
  | PowerDown
  | RfConfiguration
  | RfRegulationTest
  | InJumpForDep
  | InJumpForPsl
  | InListPassiveTarget
  | InAtr
  | InPsl
  | InDataExchange
  | InCommunicateThru
  | InDeselect
  | InRelease
  | InSelect
  | InAutoPoll
  | TgInitAsTarget
  | TgSetGeneralBytes
  | TgGetData
  | TgSetData
  | TgSetMetadata
  | TgGetInitiatorCommand
  | TgResponseToInitiator
  | TgGetTargetStatus
deriving DecidableEq, Repr

/-- Discriminant of `Pn532Command` (`command as u8`). -/
def Pn532Command.toU8 : Pn532Command → Nat
  | .Diagnose => 0x00
  | .GetFirmwareVersion => 0x02
  | .GetGeneralStatus => 0x04
  | .ReadRegister => 0x06
  | .WriteRegister => 0x08
  | .ReadGpio => 0x0C
  | .WriteGpio => 0x0E
  | .SetSerialBaudRate => 0x10
  | .SetParameters => 0x12
  | .SamConfiguration => 0x14
  | .PowerDown => 0x16
  | .RfConfiguration => 0x32
  | .RfRegulationTest => 0x58
  | .InJumpForDep => 0x56
  | .InJumpForPsl => 0x46
  | .InListPassiveTarget => 0x4A
  | .InAtr => 0x50
  | .InPsl => 0x4E
  | .InDataExchange => 0x40
  | .InCommunicateThru => 0x42
  | .InDeselect => 0x44
  | .InRelease => 0x52
  | .InSelect => 0x54
  | .InAutoPoll => 0x60
  | .TgInitAsTarget => 0x8C
  | .TgSetGeneralBytes => 0x92
  | .TgGetData => 0x86
  | .TgSetData => 0x8E
  | .TgSetMetadata => 0x94
  | .TgGetInitiatorCommand => 0x88
  | .TgResponseToInitiator => 0x90
  | .TgGetTargetStatus => 0x8A

/-- `Pn532Command::from_u8` (derived `FromPrimitive`). -/
def Pn532Command.fromU8 : Nat → Option Pn532Command
  | 0x00 => some .Diagnose
  | 0x02 => some .GetFirmwareVersion
  | 0x04 => some .GetGeneralStatus
  | 0x06 => some .ReadRegister
  | 0x08 => some .WriteRegister
  | 0x0C => some .ReadGpio
  | 0x0E => some .WriteGpio
  | 0x10 => some .SetSerialBaudRate
  | 0x12 => some .SetParameters
  | 0x14 => some .SamConfiguration
  | 0x16 => some .PowerDown
  | 0x32 => some .RfConfiguration
  | 0x58 => some .RfRegulationTest
  | 0x56 => some .InJumpForDep
  | 0x46 => some .InJumpForPsl
  | 0x4A => some .InListPassiveTarget
  | 0x50 => some .InAtr
  | 0x4E => some .InPsl
  | 0x40 => some .InDataExchange
  | 0x42 => some .InCommunicateThru
  | 0x44 => some .InDeselect
  | 0x52 => some .InRelease
  | 0x54 => some .InSelect
  | 0x60 => some .InAutoPoll
  | 0x8C => some .TgInitAsTarget
  | 0x92 => some .TgSetGeneralBytes
  | 0x86 => some .TgGetData
  | 0x8E => some .TgSetData
  | 0x94 => some .TgSetMetadata
  | 0x88 => some .TgGetInitiatorCommand
  | 0x90 => some .TgResponseToInitiator
  | 0x8A => some .TgGetTargetStatus
  | _ => none

/-- `Pn532Packet` from src/pn532.rs. -/
structure Pn532Packet where
  direction : Pn532Direction
  command : Pn532Command
  payload : List Nat
deriving DecidableEq, Repr

/-- `Pn532Packet::from_bytes` from src/pn532.rs, lines 160-204.

Direct byte indexes `data[0]` .. `data[6]` and `data[dcs_index]` are
embedded as `List.getD` because each is lexically guarded by a prior
length check (`data.len() < 9`, resp. `data.len() <= dcs_index`), so
the Rust indexing cannot panic there.  The two operations that are not
guarded by a check are kept explicit: the wire-command adjustment
`data[6] - 1` (u8 subtraction, panics on underflow in a checked build)
and the payload slice `data[7..dcs_index]` (panics when
`dcs_index < 7`); both produce `RustOutcome.panicked` in the model. -/
def Pn532Packet.from_bytes (data : List Nat) : RustOutcome String Pn532Packet :=
  if data.length < 9 then .err "Packet too short"
  else if data.getD 0 0 ≠ 0x00 ∨ data.getD 1 0 ≠ 0x00 ∨ data.getD 2 0 ≠ 0xFF then
    .err "Invalid preamble"
  else
    let payload_len := data.getD 3 0
    let lcs := data.getD 4 0
    if (payload_len + lcs) % 256 ≠ 0 then .err "Invalid length checksum (LCS)"
    else
      match Pn532Direction.fromU8 (data.getD 5 0) with
      | none => .err "Invalid direction"
      | some direction =>
        let wire : RustOutcome String Nat :=
          match direction with
          | .HostToPn532 => .ok (data.getD 6 0)
          | .Pn532ToHost =>
            if data.getD 6 0 = 0 then .panicked "attempt to subtract with overflow"
            else .ok (data.getD 6 0 - 1)
        wire >>= fun w =>
          match Pn532Command.fromU8 w with
          | none => .err "Invalid command"
          | some cmd =>
            let dcs_index := 5 + payload_len
            if data.length ≤ dcs_index then .err "Packet truncated"
            else
              let checksum_sum :=
                ((data.drop 5).take (dcs_index - 5)).foldl (fun s b => (s + b) % 256) 0
              let expected_dcs := data.getD dcs_index 0
              if (checksum_sum + expected_dcs) % 256 ≠ 0 then .err "Invalid checksum (DCS)"
              else if dcs_index < 7 then .panicked "slice index out of range"
              else .ok ⟨direction, cmd, (data.drop 7).take (dcs_index - 7)⟩

/-- `Pn532Packet::to_bytes` from src/pn532.rs, lines 206-235.
All u8 casts and wrapping operations are `% 256`; `!x` on a u8 is
`255 - x`. -/
def Pn532Packet.to_bytes (self : Pn532Packet) : List Nat :=
  let len := (self.payload.length + 2) % 256
  let lcs := (255 - len + 1) % 256
  let tfi := self.direction.toU8
  let cmd :=
    match self.direction with
    | .HostToPn532 => self.command.toU8
    | .Pn532ToHost => (self.command.toU8 + 1) % 256
  let dcs_sum := self.payload.foldl (fun s b => (s + b) % 256) ((tfi + cmd) % 256)
  let dcs := (255 - dcs_sum + 1) % 256
  [0x00, 0x00, 0xFF, len, lcs, tfi, cmd] ++ self.payload ++ [dcs, 0x00]

theorem dir_fromU8_toU8 (d : Pn532Direction) :
    Pn532Direction.fromU8 d.toU8 = some d := by
  cases d <;> rfl

theorem cmd_fromU8_toU8 (c : Pn532Command) :
    Pn532Command.fromU8 c.toU8 = some c := by
  cases c <;> rfl

theorem Pn532Command.toU8_lt (c : Pn532Command) : c.toU8 < 255 := by
  cases c <;> decide

/-- Byte-wise wrapping accumulation equals a single sum taken mod 256. -/
theorem foldl_add_mod (l : List Nat) :
    ∀ s, s < 256 → l.foldl (fun a b => (a + b) % 256) s = (s + l.sum) % 256 := by
  induction l with
  | nil => intro s hs; simp [Nat.mod_eq_of_lt hs]
  | cons b t ih =>
    intro s hs
    simp only [List.foldl_cons, List.sum_cons]
    rw [ih _ (Nat.mod_lt _ (by norm_num)), Nat.mod_add_mod]
    ring_nf

/-- The two's-complement checksum byte cancels the running sum mod 256. -/
theorem neg_mod_cancel (s : Nat) (hs : s < 256) :
    (s + (255 - s + 1) % 256) % 256 = 0 := by
  rcases Nat.eq_zero_or_pos s with h | h
  · subst h; norm_num
  · have h1 : 255 - s + 1 = 256 - s := by omega
    have h2 : 256 - s < 256 := by omega
    rw [h1, Nat.mod_eq_of_lt h2]
    have h3 : s + (256 - s) = 256 := by omega
    rw [h3]

/-- `from_bytes` on a frame of the exact shape produced by `to_bytes`:
preamble, length byte `p.length + 2`, its complement, a TFI byte decoding
to `d`, a wire command byte whose direction adjustment yields the opcode of
`c`, the payload, a cancelling DCS byte, and the postamble. -/
theorem from_bytes_frame_ok (d : Pn532Direction) (c : Pn532Command) (p : List Nat)
    (t w dc : Nat) (hlen : p.length ≤ 253)
    (hwire : (match d with
              | Pn532Direction.HostToPn532 => RustOutcome.ok w
              | Pn532Direction.Pn532ToHost =>
                if w = 0 then RustOutcome.panicked "attempt to subtract with overflow"
                else RustOutcome.ok (w - 1)) = (RustOutcome.ok c.toU8 : RustOutcome String Nat))
    (hdir : Pn532Direction.fromU8 t = some d)
    (hdcs : ((t + (w + p.sum)) % 256 + dc) % 256 = 0) :
    Pn532Packet.from_bytes
        (0 :: 0 :: 255 :: (p.length + 2) :: (254 - p.length) :: t :: w :: (p ++ [dc, 0])) =
      .ok ⟨d, c, p⟩ := by
  have hlcs0 : (p.length + 2 + (254 - p.length)) % 256 = 0 := by
    rw [show p.length + 2 + (254 - p.length) = 256 from by omega]
  unfold Pn532Packet.from_bytes
  rw [if_neg (by simp only [List.length_cons, List.length_append, List.length_nil]; omega)]
  rw [if_neg (by simp only [List.getD_cons_succ, List.getD_cons_zero]; decide)]
  rw [if_neg (by
    simp only [List.getD_cons_succ, List.getD_cons_zero]
    exact not_not_intro hlcs0)]
  simp only [List.getD_cons_succ, List.getD_cons_zero, hdir]
  rw [hwire]
  simp only [RustOutcome.ok_bind, cmd_fromU8_toU8]
  rw [if_neg (by simp only [List.length_cons, List.length_append, List.length_nil]; omega)]
  have h52 : 5 + (p.length + 2) - 5 = p.length + 2 := by omega
  have h57 : 5 + (p.length + 2) = p.length + 7 := by omega
  have h77 : p.length + 7 - 7 = p.length := by omega
  rw [h52, h57, h77]
  simp only [List.drop_succ_cons, List.drop_zero]
  rw [show p.length + 2 = (p.length + 1) + 1 from by omega]
  simp only [List.take_succ_cons, List.take_left]
  rw [show (p.length + 7) = (p.length + 6) + 1 from by omega]
  simp only [List.getD_cons_succ]
  simp only [List.getD_append_right, le_refl, Nat.sub_self, List.getD_cons_zero]
  have hfold : List.foldl (fun s b => (s + b) % 256) 0 (t :: w :: p) =
      (t + (w + p.sum)) % 256 := by
    rw [foldl_add_mod _ 0 (by norm_num)]
    simp
  simp only [hfold]
  rw [if_neg (not_not_intro hdcs)]
  rw [if_neg (by omega)]

/-- C1: for every direction, every command of the closed opcode enum, and
every byte payload of length at most 253, `Pn532Packet::from_bytes` applied
to `Pn532Packet::to_bytes` succeeds and yields back exactly the original
direction, command and payload. -/
theorem packet_roundtrip (d : Pn532Direction) (c : Pn532Command) (p : List Nat)
    (hlen : p.length ≤ 253) (_hbytes : ∀ b ∈ p, b < 256) :
    Pn532Packet.from_bytes (Pn532Packet.to_bytes ⟨d, c, p⟩) = .ok ⟨d, c, p⟩ := by
  have hp2 : (p.length + 2) % 256 = p.length + 2 := Nat.mod_eq_of_lt (by omega)
  have hlcs : (255 - (p.length + 2) + 1) % 256 = 254 - p.length := by
    have h1 : 255 - (p.length + 2) + 1 = 254 - p.length := by omega
    rw [h1, Nat.mod_eq_of_lt (by omega)]
  cases d with
  | HostToPn532 =>
    have hSeq : List.foldl (fun s b => (s + b) % 256) ((212 + c.toU8) % 256) p =
        (212 + (c.toU8 + p.sum)) % 256 := by
      rw [foldl_add_mod _ _ (Nat.mod_lt _ (by norm_num)), Nat.mod_add_mod, Nat.add_assoc]
    simp only [Pn532Packet.to_bytes, Pn532Direction.toU8, hp2, hlcs, hSeq,
      List.cons_append, List.nil_append]
    exact from_bytes_frame_ok .HostToPn532 c p 212 c.toU8 _ hlen rfl rfl
      (neg_mod_cancel _ (Nat.mod_lt _ (by norm_num)))
  | Pn532ToHost =>
    have hw1 : (c.toU8 + 1) % 256 = c.toU8 + 1 :=
      Nat.mod_eq_of_lt (by have := c.toU8_lt; omega)
    have hSeq : List.foldl (fun s b => (s + b) % 256) ((213 + (c.toU8 + 1)) % 256) p =
        (213 + (c.toU8 + 1 + p.sum)) % 256 := by
      rw [foldl_add_mod _ _ (Nat.mod_lt _ (by norm_num)), Nat.mod_add_mod, Nat.add_assoc]
    simp only [Pn532Packet.to_bytes, Pn532Direction.toU8, hp2, hlcs, hw1, hSeq,
      List.cons_append, List.nil_append]
    exact from_bytes_frame_ok .Pn532ToHost c p 213 (c.toU8 + 1) _ hlen (by simp) rfl
      (neg_mod_cancel _ (Nat.mod_lt _ (by norm_num)))

/-- Witness for C1 at a concrete input: direction `Pn532ToHost`, command
`GetFirmwareVersion`, payload `[0x2A]`. -/
theorem packet_roundtrip_witness :
    ([0x2A] : List Nat).length ≤ 253 ∧ (∀ b ∈ ([0x2A] : List Nat), b < 256) ∧
      Pn532Packet.from_bytes
          (Pn532Packet.to_bytes ⟨.Pn532ToHost, .GetFirmwareVersion, [0x2A]⟩) =
        .ok ⟨.Pn532ToHost, .GetFirmwareVersion, [0x2A]⟩ :=
  ⟨by decide, by decide,
    packet_roundtrip .Pn532ToHost .GetFirmwareVersion [0x2A] (by decide) (by decide)⟩

/-- C3 counterexample: the spec test vector `00 00 FF 03 FD D5 4B 00 E0 00`
does NOT decode to payload `[0x00, 0xE0]`: its LEN byte is 3, so the
declared frame body is TFI, CMD and a single payload byte, and `0xE0` is
the data checksum, not payload. -/
theorem vector2_payload_cex :
    Pn532Packet.from_bytes [0x00, 0x00, 0xFF, 0x03, 0xFD, 0xD5, 0x4B, 0x00, 0xE0, 0x00] ≠
      .ok ⟨.Pn532ToHost, .InListPassiveTarget, [0x00, 0xE0]⟩ := by
  decide

/-- C3 amended: the vector `00 00 FF 03 FD D5 4B 00 E0 00` decodes to
direction `Pn532ToHost`, command `InListPassiveTarget`, and the one-byte
payload `[0x00]` (`0xE0` is the DCS byte, `0x00` at the end the postamble). -/
theorem vector2_decode :
    Pn532Packet.from_bytes [0x00, 0x00, 0xFF, 0x03, 0xFD, 0xD5, 0x4B, 0x00, 0xE0, 0x00] =
      .ok ⟨.Pn532ToHost, .InListPassiveTarget, [0x00]⟩ := by
  decide

theorem dir_fromU8_some (w : Nat) (d : Pn532Direction)
    (h : Pn532Direction.fromU8 w = some d) : w = d.toU8 := by
  rw [Pn532Direction.fromU8.eq_def] at h
  split at h <;>
    first
      | (injection h with h; subst h; rfl)
      | exact Option.noConfusion h

theorem cmd_fromU8_some (w : Nat) (c : Pn532Command)
    (h : Pn532Command.fromU8 w = some c) : w = c.toU8 := by
  rw [Pn532Command.fromU8.eq_def] at h
  split at h <;>
    first
      | (injection h with h; subst h; rfl)
      | exact Option.noConfusion h

/-- C9 counterexample: on the malformed but reachable input
`00 00 FF 02 FE D5 00 00 00` the decoder reaches the wire-command
adjustment `data[6] - 1` with `data[6] = 0`: the u8 subtraction
underflows, which panics in a build with overflow checks. So
`from_bytes` is not total on this input. -/
theorem from_bytes_underflow_cex :
    Pn532Packet.from_bytes [0x00, 0x00, 0xFF, 0x02, 0xFE, 0xD5, 0x00, 0x00, 0x00] =
      .panicked "attempt to subtract with overflow" := by
  decide

/-- The payload slice of `from_bytes` cannot start past its end: a declared
payload length of 0 or 1 is always rejected by the DCS check (length 0) or
by the combination of DCS check and command decoding (length 1), because the
TFI byte is 0xD4 or 0xD5 and no opcode makes the checksum cancel. -/
theorem short_frame_absurd (data : List Nat) (d : Pn532Direction) (c : Pn532Command)
    (w : Nat) (h9 : ¬ data.length < 9)
    (hdir : Pn532Direction.fromU8 (data.getD 5 0) = some d)
    (hcmd : Pn532Command.fromU8 w = some c)
    (hw : data.getD 6 0 = w ∨ data.getD 6 0 = w + 1)
    (hdcs : ¬ (List.foldl (fun s b => (s + b) % 256) 0
          (List.take (5 + data.getD 3 0 - 5) (List.drop 5 data)) +
        data.getD (5 + data.getD 3 0) 0) % 256 ≠ 0)
    (hlt : 5 + data.getD 3 0 < 7) : False := by
  have h5 : data.getD 5 0 = d.toU8 := dir_fromU8_some _ _ hdir
  have hwc : w = c.toU8 := cmd_fromU8_some _ _ hcmd
  have hL : data.getD 3 0 = 0 ∨ data.getD 3 0 = 1 := by omega
  rcases hL with hL | hL
  · rw [hL] at hdcs
    simp only [Nat.add_zero, Nat.add_sub_cancel_left, show (5 : Nat) + 0 - 5 = 0 from rfl,
      List.take_zero, List.foldl_nil, Nat.zero_add, show (5 : Nat) + 0 = 5 from rfl, h5] at hdcs
    cases d <;> simp [Pn532Direction.toU8] at hdcs
  · rw [hL] at hdcs
    have hlen5 : 5 < data.length := by omega
    have hdrop : data.drop 5 = data.getD 5 0 :: data.drop 6 := by
      rw [List.drop_eq_getElem_cons hlen5, List.getD_eq_getElem data 0 hlen5]
    simp only [hdrop, show (5 : Nat) + 1 - 5 = 1 from rfl, show (5 : Nat) + 1 = 6 from rfl,
      List.take_succ_cons, List.take_zero, List.foldl_cons, List.foldl_nil,
      Nat.zero_add, h5, hwc] at hdcs
    rcases hw with hw | hw <;> rw [hw, hwc] at hdcs <;> cases d <;>
      simp only [Pn532Direction.toU8] at hdcs <;> cases c <;>
      simp only [Pn532Command.toU8] at hdcs <;> omega

/-- C9 amended: `from_bytes` never reads a slice index out of range, and the
only way it can panic is the u8 underflow of the wire-command adjustment
`data[6] - 1`, which requires a frame at least 9 bytes long whose direction
byte is `0xD5` and whose wire-command byte is `0x00` (in a release build the
subtraction wraps to 255 and the decoder returns the invalid-command error
instead). -/
theorem from_bytes_panic_characterization (data : List Nat) (s : String)
    (h : Pn532Packet.from_bytes data = .panicked s) :
    s = "attempt to subtract with overflow" ∧ 9 ≤ data.length ∧
      data.getD 5 0 = 0xD5 ∧ data.getD 6 0 = 0 := by
  simp only [Pn532Packet.from_bytes] at h
  split at h
  · exact RustOutcome.noConfusion h
  rename_i h9
  split at h
  · exact RustOutcome.noConfusion h
  split at h
  · exact RustOutcome.noConfusion h
  rename_i hpre hlcs
  split at h
  · exact RustOutcome.noConfusion h
  rename_i direction hdir
  split at h
  · simp only [RustOutcome.ok_bind] at h
    split at h
    · exact RustOutcome.noConfusion h
    rename_i cmd hcmd
    split at h
    · exact RustOutcome.noConfusion h
    rename_i htr
    split at h
    · exact RustOutcome.noConfusion h
    rename_i hdcsok
    split at h
    · rename_i hlt
      exact (short_frame_absurd data .HostToPn532 cmd _ h9 hdir hcmd
        (Or.inl rfl) hdcsok hlt).elim
    · exact RustOutcome.noConfusion h
  · split at h
    · rename_i hzero
      simp only [RustOutcome.panicked_bind] at h
      injection h with hs
      exact ⟨hs.symm, by omega, dir_fromU8_some _ _ hdir, hzero⟩
    rename_i hzero
    simp only [RustOutcome.ok_bind] at h
    split at h
    · exact RustOutcome.noConfusion h
    rename_i cmd hcmd
    split at h
    · exact RustOutcome.noConfusion h
    rename_i htr
    split at h
    · exact RustOutcome.noConfusion h
    rename_i hdcsok
    split at h
    · rename_i hlt
      exact (short_frame_absurd data .Pn532ToHost cmd _ h9 hdir hcmd
        (Or.inr (by omega)) hdcsok hlt).elim
    · exact RustOutcome.noConfusion h

/-- Witness for C9 amended, applying the characterization at the concrete
underflow input. -/
theorem from_bytes_panic_characterization_witness :
    "attempt to subtract with overflow" = "attempt to subtract with overflow" ∧
      9 ≤ ([0x00, 0x00, 0xFF, 0x02, 0xFE, 0xD5, 0x00, 0x00, 0x00] : List Nat).length ∧
      ([0x00, 0x00, 0xFF, 0x02, 0xFE, 0xD5, 0x00, 0x00, 0x00] : List Nat).getD 5 0 = 0xD5 ∧
      ([0x00, 0x00, 0xFF, 0x02, 0xFE, 0xD5, 0x00, 0x00, 0x00] : List Nat).getD 6 0 = 0 :=
  from_bytes_panic_characterization [0x00, 0x00, 0xFF, 0x02, 0xFE, 0xD5, 0x00, 0x00, 0x00]
    "attempt to subtract with overflow" (by decide)

/-- `OutMessage` from src/message.rs: a delivery to a subscriber. -/
inductive OutMessage where
  | Response : List Nat → OutMessage
  | DeviceDisconnect : OutMessage
deriving DecidableEq, Repr

/-- `UnSubscribePolicy` from src/message.rs. -/
inductive UnSubscribePolicy where
  | Count : Nat → UnSubscribePolicy
  | Never : UnSubscribePolicy
  | SpecificIsOn : Nat → Nat → UnSubscribePolicy
  | SpecificNotOn : Nat → Nat → UnSubscribePolicy
deriving DecidableEq, Repr

/-- `UnSubscribePolicy::need_dispose` from src/message.rs, lines 25-52. -/
def UnSubscribePolicy.need_dispose (self : UnSubscribePolicy) (msg : OutMessage)
    (count : Nat) : Bool :=
  match msg with
  | .Response packet =>
    match self with
    | .Count n => decide (count ≥ n)
    | .Never => false
    | .SpecificIsOn index byte =>
      match packet[index]? with
      | some b => if b = byte then true else false
      | none => true
    | .SpecificNotOn index byte =>
      match packet[index]? with
      | some b => if b ≠ byte then true else false
      | none => true
  | _ => true

/-- `Subscription` from src/message.rs. The tokio sender half is modelled
by a channel identifier `id` plus a flag `closed`: `blocking_send` on a
channel whose receiver was dropped returns an error, which is the only
delivery failure the worker thread can observe. -/
structure Subscription where
  id : Nat
  policy : UnSubscribePolicy
  count : Nat
  closed : Bool
deriving DecidableEq, Repr

/-- `Subscription::send` from src/message.rs, lines 73-78: increments the
counter, evaluates the policy against the message and the new counter, and
forces disposal when the channel send fails. Returns the updated
subscription state and the dispose decision. -/
def Subscription.send (self : Subscription) (msg : OutMessage) : Subscription × Bool :=
  let self' := { self with count := self.count + 1 }
  let nd := self'.policy.need_dispose msg self'.count
  (self', if self'.closed then true else nd)

/-- One attempted channel send: which channel, what message, and whether
the channel accepted it (false when the receiver was dropped). -/
structure SendEvent where
  channel : Nat
  msg : OutMessage
  delivered : Bool
deriving DecidableEq, Repr

/-- `Subscription::send_no_check` from src/message.rs, lines 80-82:
best-effort `blocking_send` whose result is discarded. -/
def Subscription.send_no_check (self : Subscription) (msg : OutMessage) : SendEvent :=
  ⟨self.id, msg, !self.closed⟩

theorem need_dispose_specific_is_on (payload : List Nat) (count off v : Nat) :
    UnSubscribePolicy.need_dispose (.SpecificIsOn off v) (.Response payload) count = true ↔
      (payload[off]? = some v ∨ payload.length ≤ off) := by
  cases hoff : payload[off]? with
    | none =>
      have hle : payload.length ≤ off := List.getElem?_eq_none_iff.mp hoff
      simp [UnSubscribePolicy.need_dispose, hoff, hle]
    | some b =>
      have hlt : ¬ payload.length ≤ off := by
        rcases List.getElem?_eq_some.mp hoff with ⟨hb, _⟩
        omega
      simp only [UnSubscribePolicy.need_dispose, hoff]
      constructor
      · intro hb
        left
        simp only [Option.some.injEq]
        by_contra hbv
        simp [hbv] at hb
      · rintro (hb | hb)
        · injection hb with hb
          simp [hb]
        · exact absurd hb hlt

theorem need_dispose_specific_not_on (payload : List Nat) (count off v : Nat) :
    UnSubscribePolicy.need_dispose (.SpecificNotOn off v) (.Response payload) count = true ↔
      (payload[off]? ≠ some v ∨ payload.length ≤ off) := by
  cases hoff : payload[off]? with
    | none =>
      have hle : payload.length ≤ off := List.getElem?_eq_none_iff.mp hoff
      simp [UnSubscribePolicy.need_dispose, hoff, hle]
    | some b =>
      have hlt : ¬ payload.length ≤ off := by
        rcases List.getElem?_eq_some.mp hoff with ⟨hb, _⟩
        omega
      simp only [UnSubscribePolicy.need_dispose, hoff]
      constructor
      · intro hb
        left
        simp only [Ne, Option.some.injEq]
        intro hbv
        simp [hbv] at hb
      · rintro (hb | hb)
        · have : ¬ b = v := fun hbv => hb (by rw [hbv])
          simp [this]
        · exact absurd hb hlt

/-- C4: `need_dispose` on a `Response` payload follows the table:
`Count n` disposes iff the counter is at least `n`; `Never` never disposes;
`SpecificIsOn off v` disposes iff the payload byte at `off` equals `v` or
the payload is too short; `SpecificNotOn off v` disposes iff that byte
differs from `v` or the payload is too short. -/
theorem need_dispose_table (payload : List Nat) (count n off v : Nat) :
    (UnSubscribePolicy.need_dispose (.Count n) (.Response payload) count = true ↔ n ≤ count) ∧
    (UnSubscribePolicy.need_dispose .Never (.Response payload) count = false) ∧
    (UnSubscribePolicy.need_dispose (.SpecificIsOn off v) (.Response payload) count = true ↔
      (payload[off]? = some v ∨ payload.length ≤ off)) ∧
    (UnSubscribePolicy.need_dispose (.SpecificNotOn off v) (.Response payload) count = true ↔
      (payload[off]? ≠ some v ∨ payload.length ≤ off)) :=
  ⟨by simp [UnSubscribePolicy.need_dispose], rfl,
    need_dispose_specific_is_on payload count off v,
    need_dispose_specific_not_on payload count off v⟩

/-- C8 counterexample: a live subscriber with policy `SpecificIsOn 4 0`
(the source's name for byte-equals) IS disposed by a delivery whose payload
has byte 0 at offset 4, contradicting the claim that it stays alive while
`payload[4] == 0`. -/
theorem specific_is_on_cex :
    (Subscription.send ⟨0, .SpecificIsOn 4 0, 0, false⟩
      (.Response [0x11, 0x22, 0x33, 0x44, 0x00])).2 = true := by
  decide

/-- C8 amended: a live subscriber with policy `SpecificIsOn 4 0` stays
alive exactly while the delivered payload has a byte at offset 4 that is
NOT 0, and is disposed by the first delivery whose payload byte at offset
4 equals 0 or whose payload is at most 4 bytes long. -/
theorem specific_is_on_send (s : Subscription) (payload : List Nat)
    (hpol : s.policy = .SpecificIsOn 4 0) (hopen : s.closed = false) :
    (Subscription.send s (.Response payload)).2 = true ↔
      (payload[4]? = some 0 ∨ payload.length ≤ 4) := by
  simp only [Subscription.send, hpol, hopen]
  simp only [Bool.false_eq_true, if_false]
  exact need_dispose_specific_is_on payload (s.count + 1) 4 0

/-- Witness for C8 amended at a concrete subscription and payloads. -/
theorem specific_is_on_send_witness :
    (Subscription.mk 7 (.SpecificIsOn 4 0) 3 false).policy = .SpecificIsOn 4 0 ∧
      ((Subscription.send ⟨7, .SpecificIsOn 4 0, 3, false⟩
          (.Response [1, 2, 3, 4, 5])).2 = true ↔
        (([1, 2, 3, 4, 5] : List Nat)[4]? = some 0 ∨
          ([1, 2, 3, 4, 5] : List Nat).length ≤ 4)) :=
  ⟨rfl, specific_is_on_send ⟨7, .SpecificIsOn 4 0, 3, false⟩ [1, 2, 3, 4, 5] rfl rfl⟩

/-- `InMessage` from src/message.rs: a request to the transport worker. -/
inductive InMessage where
  | SendPacket : List Nat → InMessage
  | SendPacketAndSubscribe : List Nat → Subscription → InMessage
  | Subscribe : Nat → Subscription → InMessage
  | UnSubscribe : Nat → InMessage

/-- The `HashMap<u8, Subscription>` registry of the transport loop,
modelled as an association list with at most one entry per key. -/
abbrev Registry := List (Nat × Subscription)

/-- `HashMap::insert`: at most one entry per key, silently replacing any
previous occupant of the key. -/
def registryInsert (regs : Registry) (k : Nat) (s : Subscription) : Registry :=
  (k, s) :: List.filter (fun kv => kv.1 ≠ k) regs

/-- `HashMap::remove`. -/
def registryRemove (regs : Registry) (k : Nat) : Registry :=
  List.filter (fun kv => kv.1 ≠ k) regs

/-- `HashMap::get` / `Entry::Occupied` lookup. -/
def registryLookup (regs : Registry) (k : Nat) : Option Subscription :=
  (List.find? (fun kv => kv.1 = k) regs).map (fun kv => kv.2)

/-- `HinataDeviceBuilder::handle_hid_error` from src/builder.rs, lines
154-158: drains the whole registry and best-effort sends
`DeviceDisconnect` to every drained subscriber, ignoring send results.
Returns the attempted channel sends and the registry afterwards. -/
def handle_hid_error (subscribes : Registry) : List SendEvent × Registry :=
  (List.map (fun kv => Subscription.send_no_check kv.2 .DeviceDisconnect) subscribes, [])

/-- The drain-phase handling of one `InMessage` in
`HinataDeviceBuilder::io_loop`, src/builder.rs lines 166-195: returns the
updated registry and the bytes handed to `connection.write`, or a panic for
the unguarded `data[1]` index. -/
def handleInMessage (regs : Registry) (msg : InMessage) :
    RustOutcome String (Registry × Option (List Nat)) :=
  match msg with
  | .SendPacket data => .ok (regs, some data)
  | .SendPacketAndSubscribe data subscription =>
    match data[1]? with
    | none => .panicked "index out of bounds"
    | some b1 =>
      let key := if b1 = 1 then 50 else b1
      .ok (registryInsert regs key subscription, some data)
  | .Subscribe cmd subscription => .ok (registryInsert regs cmd subscription, none)
  | .UnSubscribe cmd => .ok (registryRemove regs cmd, none)

/-- The read-phase of `HinataDeviceBuilder::io_loop`, src/builder.rs lines
204-221, after `read_timeout` returned `Ok len` into the fixed 64-byte
buffer `buf`: when `len > 0` and a subscriber is registered under key
`buf[1]`, it is sent `Response(buf[1..])`, its updated state is kept, and
it is removed when the send asked for disposal.  Returns the new registry
and the delivery that took place (channel id and payload), if any. -/
def readPhase (regs : Registry) (buf : List Nat) (len : Nat) :
    Registry × Option (Nat × List Nat) :=
  if 0 < len then
    match registryLookup regs (buf.getD 1 0) with
    | some entry =>
      let result := entry.send (.Response (buf.drop 1))
      ((if result.2 then registryRemove regs (buf.getD 1 0)
        else registryInsert regs (buf.getD 1 0) result.1),
        some (entry.id, buf.drop 1))
    | none => (regs, none)
  else (regs, none)

/-- C2: on an irrecoverable HID error the worker sends exactly one
`DeviceDisconnect` to every currently registered subscriber, whatever its
key: there is exactly one attempted send per registry entry, the i-th send
goes to the i-th entry's channel and carries `DeviceDisconnect`, a closed
channel only makes that one delivery fail without affecting the others, and
the registry is empty afterwards. -/
theorem disconnect_fanout (subscribes : Registry) :
    (handle_hid_error subscribes).2 = [] ∧
    (handle_hid_error subscribes).1.length = subscribes.length ∧
    (∀ (i k : Nat) (s : Subscription), subscribes[i]? = some (k, s) →
      (handle_hid_error subscribes).1[i]? =
        some (SendEvent.mk s.id .DeviceDisconnect (!s.closed))) := by
  refine ⟨rfl, by simp [handle_hid_error], ?_⟩
  intro i k s h
  simp only [handle_hid_error, List.getElem?_map, h, Option.map_some']
  rfl

/-- Witness for C2 on a two-entry registry whose second channel is closed:
both subscribers are notified, the closed one only loses its own delivery. -/
theorem disconnect_fanout_witness :
    ([(3, ⟨10, .Never, 0, false⟩), (7, ⟨11, .Count 1, 2, true⟩)] : Registry)[1]? =
        some (7, ⟨11, .Count 1, 2, true⟩) ∧
      (handle_hid_error
          [(3, ⟨10, .Never, 0, false⟩), (7, ⟨11, .Count 1, 2, true⟩)]).1[1]? =
        some ⟨11, .DeviceDisconnect, false⟩ :=
  ⟨rfl, (disconnect_fanout [(3, ⟨10, .Never, 0, false⟩), (7, ⟨11, .Count 1, 2, true⟩)]).2.2
    1 7 ⟨11, .Count 1, 2, true⟩ rfl⟩

/-- C5: a `SendPacketAndSubscribe` request registers its subscriber under
the correlation key `data[1]`, remapped to 50 exactly when `data[1] = 1`,
and hands the packet bytes to the hardware write unchanged. -/
theorem subscribe_key_remap (regs : Registry) (data : List Nat)
    (subscription : Subscription) (b1 : Nat) (h1 : data[1]? = some b1) :
    handleInMessage regs (.SendPacketAndSubscribe data subscription) =
      .ok (registryInsert regs (if b1 = 1 then 50 else b1) subscription, some data) ∧
    registryLookup (registryInsert regs (if b1 = 1 then 50 else b1) subscription)
      (if b1 = 1 then 50 else b1) = some subscription := by
  constructor
  · simp [handleInMessage, h1]
  · simp [registryLookup, registryInsert, List.find?_cons]

/-- Witness for C5 with the remapped generic command byte 1: the packet
`[1, 1, 9]` registers under key 50 and is written unchanged. -/
theorem subscribe_key_remap_witness :
    (([1, 1, 9] : List Nat)[1]? = some 1) ∧
      (handleInMessage [] (.SendPacketAndSubscribe [1, 1, 9] ⟨5, .Count 1, 0, false⟩) =
        .ok (registryInsert [] 50 ⟨5, .Count 1, 0, false⟩, some [1, 1, 9]) ∧
      registryLookup (registryInsert [] 50 ⟨5, .Count 1, 0, false⟩) 50 =
        some ⟨5, .Count 1, 0, false⟩) := by
  have h := subscribe_key_remap [] [1, 1, 9] ⟨5, .Count 1, 0, false⟩ 1 rfl
  exact ⟨rfl, by simpa using h⟩

/-- C10 (implicit): whenever the read succeeds with `len > 0` and a
subscriber is registered under key `buf[1]`, the delivered payload is
exactly `buf[1..]` of the fixed 64-byte read buffer, hence always 63 bytes
long, and it does not depend on the number of bytes `len` the read actually
produced. -/
theorem read_phase_payload (regs : Registry) (buf : List Nat) (len : Nat)
    (entry : Subscription) (hbuf : buf.length = 64) (hlen : 0 < len)
    (hsub : registryLookup regs (buf.getD 1 0) = some entry) :
    (∃ regs2, readPhase regs buf len = (regs2, some (entry.id, buf.drop 1))) ∧
    (buf.drop 1).length = 63 ∧
    (∀ len2, 0 < len2 → readPhase regs buf len2 = readPhase regs buf len) := by
  refine ⟨?_, by simp [hbuf], ?_⟩
  · refine ⟨if (entry.send (.Response (buf.drop 1))).2
        then registryRemove regs (buf.getD 1 0)
        else registryInsert regs (buf.getD 1 0) (entry.send (.Response (buf.drop 1))).1, ?_⟩
    unfold readPhase
    rw [if_pos hlen, hsub]
  · intro len2 hlen2
    unfold readPhase
    rw [if_pos hlen, if_pos hlen2]

/-- Witness for C10 on a concrete 64-byte buffer and registry. -/
theorem read_phase_payload_witness :
    (List.replicate 64 0xAB).length = 64 ∧
      (∃ regs2, readPhase [(0xAB, ⟨9, .Count 1, 0, false⟩)] (List.replicate 64 0xAB) 5 =
        (regs2, some (9, (List.replicate 64 0xAB).drop 1))) ∧
      ((List.replicate 64 0xAB).drop 1).length = 63 :=
  have h := read_phase_payload [(0xAB, ⟨9, .Count 1, 0, false⟩)] (List.replicate 64 0xAB) 5
    ⟨9, .Count 1, 0, false⟩ (by decide) (by decide) (by decide)
  ⟨by decide, h.1, h.2.1⟩

/-- `Pn532Error` from src/pn532.rs: chip status codes. -/
inductive Pn532Error where
  | None
  | Timeout
  | Crc
  | Parity
  | CollisionBitCount
  | MifareFraming
  | CollisionBitCollision
  | NoBufs
  | RfNoBufs
  | ActiveTooSlow
  | RfProto
  | TooHot
  | InternalNoBufs
  | Inval
  | DepInvalidCommand
  | DepBadData
  | MifareAuth
  | NoSecure
  | I2cBusy
  | UidChecksum
  | DepState
  | HciInval
  | Context
  | Released
  | CardSwapped
  | NoCard
  | Mismatch
  | Overcurrent
  | NoNad
deriving DecidableEq, Repr

/-- `Error` from src/hinata/error.rs. Payload-bearing variants carry the
message string; `Io` carries the text of the underlying `std::io::Error`
(the conversion applied by the `#[from] std::io::Error` clause). -/
inductive Error where
  | Parse : String → Error
  | Pn532 : Pn532Error → Error
  | Io : String → Error
  | Timeout : String → Error
  | NotFound : String → Error
  | Disconnected : String → Error
  | NotSupport : String → Error
  | Protocol : String → Error
  | Other : String → Error
deriving DecidableEq, Repr

/-- `Iso14443a` from src/card.rs (the `aqta` field name follows the
source). -/
structure Iso14443a where
  uid : List Nat
  sak : Nat
  aqta : Nat
deriving DecidableEq, Repr

/-- `Felica` from src/card.rs. -/
structure Felica where
  idm : List Nat
  pmm : List Nat
  system_codes : List Nat
deriving DecidableEq, Repr

/-- `PassiveTarget` from src/card.rs. -/
inductive PassiveTarget where
  | Iso14443a : Iso14443a → PassiveTarget
  | Felica : Felica → PassiveTarget
deriving DecidableEq, Repr

/-- `Cursor::read_u8`: one byte or the io eof error
("failed to fill whole buffer"), converted to `Error::Io` by `?`. -/
def readU8 : List Nat → RustOutcome Error (Nat × List Nat)
  | [] => .err (.Io "failed to fill whole buffer")
  | b :: rest => .ok (b, rest)

/-- `Cursor::read_u16::<BigEndian>`. -/
def readU16be : List Nat → RustOutcome Error (Nat × List Nat)
  | b0 :: b1 :: rest => .ok (b0 * 256 + b1, rest)
  | _ => .err (.Io "failed to fill whole buffer")

/-- `Cursor::read_exact` into an `n`-byte buffer. -/
def readExact (l : List Nat) (n : Nat) : RustOutcome Error (List Nat × List Nat) :=
  if l.length < n then .err (.Io "failed to fill whole buffer")
  else .ok (l.take n, l.drop n)

/-- The FeliCa system-code loop of `parse_in_list_passive_target`:
`sys_cnt` big-endian u16 reads. -/
def readU16beN : Nat → List Nat → RustOutcome Error (List Nat × List Nat)
  | 0, l => .ok ([], l)
  | n + 1, l => do
    let (c, l1) ← readU16be l
    let (cs, l2) ← readU16beN n l1
    pure (c :: cs, l2)

/-- One iteration of the tag loop of `parse_in_list_passive_target`,
src/pn532.rs lines 339-375. -/
def parseOneTag (brty : Nat) (l : List Nat) :
    RustOutcome Error (PassiveTarget × List Nat) := do
  let (_tg, l1) ← readU8 l
  if brty = 0 then do
    let (atqa, l2) ← readU16be l1
    let (sak, l3) ← readU8 l2
    let (len, l4) ← readU8 l3
    let (uid, l5) ← readExact l4 len
    pure (.Iso14443a ⟨uid, sak, atqa⟩, l5)
  else if brty = 1 ∨ brty = 2 then do
    let (len, l2) ← readU8 l1
    if len < 18 then RustOutcome.err (.Other "Len error")
    else do
      let (_code, l3) ← readU8 l2
      let (idm, l4) ← readExact l3 8
      let (pmm, l5) ← readExact l4 8
      let (sys_codes, l6) ← readU16beN ((len - 18) / 2) l5
      pure (.Felica ⟨idm, pmm, sys_codes⟩, l6)
  else RustOutcome.err (.Protocol "Not Supported")

/-- The `for _ in 0..tag_num` loop of `parse_in_list_passive_target`,
accumulating the pushed tags. -/
def parseTags (brty : Nat) : Nat → List Nat → List PassiveTarget →
    RustOutcome Error (List PassiveTarget)
  | 0, _, acc => .ok acc
  | n + 1, l, acc => do
    let (t, l1) ← parseOneTag brty l
    parseTags brty n l1 (acc ++ [t])

/-- `parse_in_list_passive_target` from src/pn532.rs, lines 333-377. -/
def parse_in_list_passive_target (data : List Nat) (brty : Nat) :
    RustOutcome Error (List PassiveTarget) := do
  let (tag_num, l) ← readU8 data
  parseTags brty tag_num l []

theorem RustOutcome.bind_eq_err {ε α β : Type} {m : RustOutcome ε α}
    {f : α → RustOutcome ε β} {e : ε} (h : m >>= f = .err e) :
    m = .err e ∨ ∃ a, m = .ok a ∧ f a = .err e := by
  cases m with
  | ok a =>
    rw [RustOutcome.ok_bind] at h
    exact .inr ⟨a, rfl, h⟩
  | err e2 =>
    rw [RustOutcome.err_bind] at h
    injection h with h
    exact .inl (by rw [h])
  | panicked s =>
    rw [RustOutcome.panicked_bind] at h
    exact RustOutcome.noConfusion h

theorem readU8_err (l : List Nat) (e : Error) (h : readU8 l = .err e) :
    e = .Io "failed to fill whole buffer" := by
  cases l with
  | nil => injection h with h; exact h.symm
  | cons b rest => exact RustOutcome.noConfusion h

theorem readU16be_err (l : List Nat) (e : Error) (h : readU16be l = .err e) :
    e = .Io "failed to fill whole buffer" := by
  match l with
  | [] => injection h with h; exact h.symm
  | [b0] => injection h with h; exact h.symm
  | b0 :: b1 :: rest => exact RustOutcome.noConfusion h

theorem readExact_err (l : List Nat) (n : Nat) (e : Error)
    (h : readExact l n = .err e) : e = .Io "failed to fill whole buffer" := by
  unfold readExact at h
  split at h
  · injection h with h; exact h.symm
  · exact RustOutcome.noConfusion h

theorem readU16beN_err (n : Nat) (l : List Nat) (e : Error)
    (h : readU16beN n l = .err e) : e = .Io "failed to fill whole buffer" := by
  induction n generalizing l with
  | zero => exact RustOutcome.noConfusion h
  | succ n ih =>
    unfold readU16beN at h
    rcases RustOutcome.bind_eq_err h with h1 | ⟨⟨c, l1⟩, _, h1⟩
    · exact readU16be_err l e h1
    rcases RustOutcome.bind_eq_err h1 with h2 | ⟨⟨cs, l2⟩, _, h2⟩
    · exact ih l1 h2
    · exact RustOutcome.noConfusion h2

theorem parseOneTag_err (brty : Nat) (l : List Nat) (e : Error)
    (h : parseOneTag brty l = .err e) :
    e = .Io "failed to fill whole buffer" ∨ e = .Other "Len error" ∨
      e = .Protocol "Not Supported" := by
  unfold parseOneTag at h
  rcases RustOutcome.bind_eq_err h with h1 | ⟨⟨tg, l1⟩, _, h1⟩
  · exact .inl (readU8_err l e h1)
  simp only [] at h1
  split at h1
  · rcases RustOutcome.bind_eq_err h1 with h2 | ⟨⟨atqa, l2⟩, _, h2⟩
    · exact .inl (readU16be_err l1 e h2)
    rcases RustOutcome.bind_eq_err h2 with h3 | ⟨⟨sak, l3⟩, _, h3⟩
    · exact .inl (readU8_err _ e h3)
    rcases RustOutcome.bind_eq_err h3 with h4 | ⟨⟨len, l4⟩, _, h4⟩
    · exact .inl (readU8_err _ e h4)
    rcases RustOutcome.bind_eq_err h4 with h5 | ⟨⟨uid, l5⟩, _, h5⟩
    · exact .inl (readExact_err _ _ e h5)
    · exact RustOutcome.noConfusion h5
  split at h1
  · rcases RustOutcome.bind_eq_err h1 with h2 | ⟨⟨len, l2⟩, _, h2⟩
    · exact .inl (readU8_err l1 e h2)
    simp only [] at h2
    split at h2
    · injection h2 with h2; exact .inr (.inl h2.symm)
    rcases RustOutcome.bind_eq_err h2 with h3 | ⟨⟨code, l3⟩, _, h3⟩
    · exact .inl (readU8_err _ e h3)
    rcases RustOutcome.bind_eq_err h3 with h4 | ⟨⟨idm, l4⟩, _, h4⟩
    · exact .inl (readExact_err _ _ e h4)
    rcases RustOutcome.bind_eq_err h4 with h5 | ⟨⟨pmm, l5⟩, _, h5⟩
    · exact .inl (readExact_err _ _ e h5)
    rcases RustOutcome.bind_eq_err h5 with h6 | ⟨⟨codes, l6⟩, _, h6⟩
    · exact .inl (readU16beN_err _ _ e h6)
    · exact RustOutcome.noConfusion h6
  · injection h1 with h1; exact .inr (.inr h1.symm)

theorem parseTags_err (brty : Nat) (n : Nat) (l : List Nat)
    (acc : List PassiveTarget) (e : Error) (h : parseTags brty n l acc = .err e) :
    e = .Io "failed to fill whole buffer" ∨ e = .Other "Len error" ∨
      e = .Protocol "Not Supported" := by
  induction n generalizing l acc with
  | zero => exact RustOutcome.noConfusion h
  | succ n ih =>
    unfold parseTags at h
    rcases RustOutcome.bind_eq_err h with h1 | ⟨⟨t, l1⟩, _, h1⟩
    · exact parseOneTag_err brty l e h1
    · exact ih l1 (acc ++ [t]) h1

/-- C7 amended: whenever the card-list decoder fails, the error is the
`Error::Io` conversion of the cursor eof ("failed to fill whole buffer",
produced exactly when a read runs past the available bytes), the
`Error::Other "Len error"` rejection of a short FeliCa length, or the
`Error::Protocol "Not Supported"` rejection of an unknown baud-rate type.
In particular a truncated read is classified as an Io error, not as a
protocol error. -/
theorem card_decoder_error_classification (data : List Nat) (brty : Nat) (e : Error)
    (h : parse_in_list_passive_target data brty = .err e) :
    e = .Io "failed to fill whole buffer" ∨ e = .Other "Len error" ∨
      e = .Protocol "Not Supported" := by
  unfold parse_in_list_passive_target at h
  rcases RustOutcome.bind_eq_err h with h1 | ⟨⟨tagNum, l⟩, _, h1⟩
  · exact .inl (readU8_err data e h1)
  · exact parseTags_err brty tagNum l [] e h1

/-- Whether an `Error` value is the `Protocol` variant. -/
def Error.isProtocol : Error → Bool
  | .Protocol _ => true
  | _ => false

/-- C7 counterexample: on the truncated payload `[0x01]` (one declared tag,
no tag data) the decoder fails with `Error::Io`, which is not the
`Protocol` variant the claim assigns to a truncated card-list payload. -/
theorem card_decoder_truncation_io :
    parse_in_list_passive_target [0x01] 0 =
        .err (.Io "failed to fill whole buffer") ∧
      (Error.Io "failed to fill whole buffer").isProtocol = false := by
  decide

/-- Witness for C7 amended at the concrete truncated input `[0x01]`. -/
theorem card_decoder_error_classification_witness :
    Error.Io "failed to fill whole buffer" = Error.Io "failed to fill whole buffer" ∨
      Error.Io "failed to fill whole buffer" = Error.Other "Len error" ∨
      Error.Io "failed to fill whole buffer" = Error.Protocol "Not Supported" :=
  card_decoder_error_classification [0x01] 0 (.Io "failed to fill whole buffer") rfl

/-- Rust slice `&l[a..b]` (panics when the range is invalid). -/
def rustSlice {ε : Type} (l : List Nat) (a b : Nat) : RustOutcome ε (List Nat) :=
  if a ≤ b ∧ b ≤ l.length then .ok ((l.drop a).take (b - a))
  else .panicked "slice index out of range"

/-- Rust slice `&l[a..]` (panics when `a` exceeds the length). -/
def rustSliceFrom {ε : Type} (l : List Nat) (a : Nat) : RustOutcome ε (List Nat) :=
  if a ≤ l.length then .ok (l.drop a) else .panicked "slice index out of range"

/-- One receive attempt on the subscription channel, as observed by
`HinataDevice::receive_packet` (src/device.rs lines 81-96): a message, a
closed channel, or the 1000 ms timeout elapsing first. -/
inductive RecvEvent where
  | msg : OutMessage → RecvEvent
  | closed : RecvEvent
  | timedOut : RecvEvent
deriving DecidableEq, Repr

/-- `HinataDevice::receive_packet` over the stream of receive events:
returns the payload of a `Response` and the remaining stream, maps
`DeviceDisconnect` and a closed channel to `Disconnected`, and the elapsed
deadline to `Timeout` (an exhausted stream can only time out). -/
def receive_packet : List RecvEvent → RustOutcome Error (List Nat × List RecvEvent)
  | [] => .err (.Timeout "Wait response timeout")
  | .msg (.Response data) :: rest => .ok (data, rest)
  | .msg .DeviceDisconnect :: _ => .err (.Disconnected "Device disconnected")
  | .closed :: _ => .err (.Disconnected "Subscribe channel disconnected")
  | .timedOut :: _ => .err (.Timeout "Wait response timeout")

/-- `<HinataDevice as Pn532Port>::request` from src/device.rs, lines 43-63,
modelled over the stream of deliveries arriving on the subscription this
request registers (policy `SpecificNotOn 4 0`, fire-and-forget submit of
`[1, 0xE2] ++ packet.to_bytes()`): awaits the ack frame, requires bytes
1..7 of it to equal `00 00 FF 00 FF 00`, then awaits, strips and decodes
the response frame and validates its direction and command. -/
def Pn532Port.request (pn532_cmd : Pn532Command) (payload : List Nat)
    (events : List RecvEvent) : RustOutcome Error (List Nat) := do
  let packet : Pn532Packet := ⟨.HostToPn532, pn532_cmd, payload⟩
  let _send := [1, 0xE2] ++ packet.to_bytes
  let (ack, events1) ← receive_packet events
  let ackSlice ← rustSlice ack 1 7
  if ackSlice ≠ [0x00, 0x00, 0xFF, 0x00, 0xFF, 0x00] then
    RustOutcome.err (.Protocol "ack error")
  else do
    let (res, _) ← receive_packet events1
    let resTail ← rustSliceFrom res 1
    let res_packet ← match Pn532Packet.from_bytes resTail with
      | .ok p => pure p
      | .err s => RustOutcome.err (.Protocol s)
      | .panicked s => RustOutcome.panicked s
    if res_packet.direction ≠ .Pn532ToHost then
      RustOutcome.err (.Protocol "Direction mismatch")
    else if res_packet.command ≠ packet.command then
      RustOutcome.err (.Protocol "Command mismatch")
    else pure res_packet.payload

/-- C6: a chip-wrapped request whose first correlated delivery does not
carry the literal ACK pattern `00 00 FF 00 FF 00` at offsets 1..7 fails
with the protocol error "ack error", whatever deliveries (in particular a
well-formed response frame) follow. -/
theorem ack_mismatch_protocol (cmd : Pn532Command) (payload : List Nat)
    (first : List Nat) (rest : List RecvEvent)
    (hlen : 7 ≤ first.length)
    (hack : (first.drop 1).take 6 ≠ [0x00, 0x00, 0xFF, 0x00, 0xFF, 0x00]) :
    Pn532Port.request cmd payload (.msg (.Response first) :: rest) =
      .err (.Protocol "ack error") := by
  unfold Pn532Port.request
  simp only [receive_packet, RustOutcome.ok_bind]
  unfold rustSlice
  rw [if_pos ⟨by omega, hlen⟩]
  simp only [RustOutcome.ok_bind, show (7 : Nat) - 1 = 6 from rfl]
  rw [if_pos hack]

/-- Witness for C6: an all-zero 63-byte first delivery is not the ACK
pattern, so the request fails with "ack error" even though the second
delivery is a well-formed `GetFirmwareVersion` response frame. -/
theorem ack_mismatch_protocol_witness :
    7 ≤ (List.replicate 63 0).length ∧
      ((List.replicate 63 0).drop 1).take 6 ≠ [0x00, 0x00, 0xFF, 0x00, 0xFF, 0x00] ∧
      Pn532Port.request .GetFirmwareVersion []
          (.msg (.Response (List.replicate 63 0)) ::
            [.msg (.Response
              (0 :: Pn532Packet.to_bytes ⟨.Pn532ToHost, .GetFirmwareVersion, [0x2A]⟩))]) =
        .err (.Protocol "ack error") :=
  ⟨by decide, by decide,
    ack_mismatch_protocol .GetFirmwareVersion [] (List.replicate 63 0)
      [.msg (.Response
        (0 :: Pn532Packet.to_bytes ⟨.Pn532ToHost, .GetFirmwareVersion, [0x2A]⟩))]
      (by decide) (by decide)⟩

end Hinata
